import Mathlib

/-!
Verification of the notification validation, decryption, and dispatch
pipeline in `src/routes/listen.js` (the `POST /listen` webhook handler).

The handler is embedded as a pure function over an explicit environment of
collaborator oracles, producing a trace of observable actions (collaborator
calls, dispatch emits, error logs) together with the HTTP outcome.  Helpers
that live outside `src/` (`tokenHelper`, `certHelper`, `dbHelper`, the graph
client) are modelled from the spec as non-throwing functions carried in the
environment.  A thrown JavaScript exception in the handler itself (the
empty-array `reduce`) is modelled as `Except.error`.
-/

namespace Listen

/-- `resourceData` of a notification: the changed resource's id and its
`@odata.type` tag. -/
structure ResourceData where
  id : String
  odataType : String
  deriving Repr, DecidableEq

/-- `encryptedContent` of a notification: wrapped symmetric key, signature
over the ciphertext, and the symmetric ciphertext itself. -/
structure EncryptedContent where
  dataKey : String
  dataSignature : String
  data : String
  deriving Repr, DecidableEq

/-- One entry of the inbound batch's `value` array. -/
structure Notification where
  subscriptionId : String
  clientState : String
  changeType : String
  resource : String
  resourceData : ResourceData
  encryptedContent : Option EncryptedContent
  deriving Repr, DecidableEq

/-- A subscription record from the store; the pipeline reads only
`userAccountId`. -/
structure Subscription where
  userAccountId : String
  deriving Repr, DecidableEq

/-- The subscription store, an association of subscription ids to records.
`dbHelper` is external to `src/`; the spec says the pipeline only reads it. -/
def Store := List (String × Subscription)

/-- Modelled from the spec: `dbHelper.getSubscription` (not under `src/`) —
`SubscriptionResolver.lookup(subscriptionId) -> Subscription | None`, a pure
read of the external store. -/
def getSubscription (store : Store) (subscriptionId : String) : Option Subscription :=
  (List.lookup subscriptionId store)

/-- Modelled from the spec: a store write `putSubscription` exists on the
external store (subscriptions are created/renewed elsewhere); the handler in
`src/routes/listen.js` never invokes it. -/
def putSubscription (store : Store) (subscriptionId : String) (s : Subscription) : Store :=
  (subscriptionId, s) :: store

/-- The minimal projection fetched from the graph by
`.select('subject,id')`. -/
structure GraphEvent where
  subject : String
  id : String
  deriving Repr, DecidableEq

/-- The `resource` field of a dispatched event: the empty object `{}`, the
`JSON.parse` of a decrypted payload, or a fetched graph projection. -/
inductive Resource where
  | emptyObj : Resource
  | parsedJson (payload : String) : Resource
  | graphEvent (e : GraphEvent) : Resource
  deriving Repr, DecidableEq

/-- The normalized event published to a Socket.io room. -/
structure DispatchEvent where
  type : String
  resource : Resource
  deriving Repr, DecidableEq

/-- Observable actions of the handler: collaborator calls, dispatch emits,
and local error logs. -/
inductive Action where
  | decryptKeyCall (dataKey : String) : Action
  | verifySignatureCall (signature data : String) : Action
  | decryptPayloadCall (data : String) : Action
  | fetchCall (userAccountId path : String) : Action
  | logError (message : String) : Action
  | emit (subscriptionId : String) (event : DispatchEvent) : Action
  deriving Repr, DecidableEq

/-- Collaborator oracles and process-wide configuration.  Modelled from the
spec: `tokenHelper.isTokenValid` (returns a boolean, never throws),
`certHelper.decryptSymmetricKey` / `verifySignature` / `decryptPayload`
(failures are returned as values — an unwrap failure yields key material that
no signature verifies under — never thrown), and the graph client `getEvent`
(fetch failure is an `Except.error`, caught by the handler).  These files are
not under `src/`. -/
structure Env where
  oauthClientId : String
  oauthTenantId : String
  subscriptionClientState : String
  privateKeyPath : String
  isTokenValid : String → String → String → Bool
  decryptSymmetricKey : String → String → String
  verifySignature : String → String → String → Bool
  decryptPayload : String → String → String
  getEvent : String → String → Except String GraphEvent

/-- An inbound request: the optional `validationToken` query parameter, the
optional `validationTokens` array of the body, and the body's `value` array. -/
structure Request where
  queryValidationToken : Option String
  validationTokens : Option (List String)
  value : List Notification

/-- The HTTP outcome the handler produces: the echoed validation token
(`200 text/plain`) or a bare status code. -/
inductive HttpResponse where
  | echo (token : String) : HttpResponse
  | status (code : Nat) : HttpResponse
  deriving Repr, DecidableEq

/-- JavaScript's `Array.prototype.reduce` with callback `(x, y) => x && y`
and no initial value: on an empty array it throws (`none`); otherwise the
first element seeds a left fold of `&&`. -/
def reduceAnd : List Bool → Option Bool
  | [] => none
  | x :: xs => some (xs.foldl (fun a b => a && b) x)

/-- `processEncryptedNotification` (listen.js lines 74–101): unwrap the
symmetric key, verify the signature over the ciphertext; only if the
signature is valid, decrypt the payload and emit a `chatMessage` event with
the parsed plaintext.  `ec` is the value of `notification.encryptedContent`,
which the caller has checked is present. -/
def processEncryptedNotification (env : Env) (n : Notification) (ec : EncryptedContent) :
    List Action :=
  let symmetricKey := env.decryptSymmetricKey ec.dataKey env.privateKeyPath
  let isSignatureValid := env.verifySignature ec.dataSignature ec.data symmetricKey
  Action.decryptKeyCall ec.dataKey ::
  Action.verifySignatureCall ec.dataSignature ec.data ::
  (if isSignatureValid then
    let decryptedPayload := env.decryptPayload ec.data symmetricKey
    [Action.decryptPayloadCall ec.data,
     Action.emit n.subscriptionId
       { type := "chatMessage", resource := Resource.parsedJson decryptedPayload }]
  else [])

/-- `processNotification` (listen.js lines 108–163): for `changeType ==
"created"`, fetch the projection at `/${notification.resource}` and emit an
event tagged with the resource's `@odata.type`; a fetch failure is caught
and logged, with no emit.  For any other change type, emit a generic
`event` with an empty resource body. -/
def processNotification (env : Env) (n : Notification) (userAccountId : String) :
    List Action :=
  let messageId := n.resourceData.id
  if n.changeType = "created" then
    match env.getEvent userAccountId ("/" ++ n.resource) with
    | Except.ok event =>
      [Action.fetchCall userAccountId ("/" ++ n.resource),
       Action.emit n.subscriptionId
         { type := n.resourceData.odataType, resource := Resource.graphEvent event }]
    | Except.error _ =>
      [Action.fetchCall userAccountId ("/" ++ n.resource),
       Action.logError ("Error getting event with " ++ messageId)]
  else
    [Action.emit n.subscriptionId { type := "event", resource := Resource.emptyObj }]

/-- The body of the per-notification loop (listen.js lines 43–65): the
client-state gate, the subscription lookup, and the branch on
`encryptedContent`. -/
def processOne (env : Env) (store : Store) (n : Notification) : List Action :=
  if n.clientState = env.subscriptionClientState then
    match getSubscription store n.subscriptionId with
    | some subscription =>
      match n.encryptedContent with
      | some ec => processEncryptedNotification env n ec
      | none => processNotification env n subscription.userAccountId
    | none => []
  else []

/-- The `POST /listen` handler (listen.js lines 12–69).  A request carrying
a `validationToken` query parameter is echoed back.  Otherwise, if
`validationTokens` is present, each token is checked and the results are
aggregated with the no-initial-value `reduce`; an empty array makes the
handler throw (`Except.error`).  If the aggregate is valid, each
notification of `value` is processed in order; finally `202` is sent. -/
def listenPost (env : Env) (store : Store) (req : Request) :
    Except Unit (HttpResponse × List Action) × Store :=
  match req.queryValidationToken with
  | some token => (Except.ok (HttpResponse.echo token, []), store)
  | none =>
    let tokenStep : Except Unit Bool :=
      match req.validationTokens with
      | none => Except.ok true
      | some tokens =>
        let validationResults :=
          tokens.map (fun t => env.isTokenValid t env.oauthClientId env.oauthTenantId)
        match reduceAnd validationResults with
        | none => Except.error ()
        | some b => Except.ok b
    match tokenStep with
    | Except.error _ => (Except.error (), store)
    | Except.ok areTokensValid =>
      let actions :=
        if areTokensValid then (req.value.map (processOne env store)).flatten
        else []
      (Except.ok (HttpResponse.status 202, actions), store)

/-! ### Helper lemmas -/

/-- On a nonempty list, the no-initial-value `reduce` of `&&` computes the
conjunction of all elements. -/
theorem reduceAnd_cons (x : Bool) (xs : List Bool) :
    reduceAnd (x :: xs) = some ((x :: xs).all id) := by
  show some (xs.foldl (fun a b => a && b) x) = some ((x :: xs).all id)
  congr 1
  induction xs generalizing x with
  | nil => simp
  | cons y ys ih =>
    simp only [List.foldl_cons, List.all_cons, id]
    rw [ih (x && y)]
    simp [Bool.and_assoc]

/-- A request with a `validationToken` query parameter is echoed back. -/
theorem listenPost_echo (env : Env) (store : Store) (req : Request) (token : String)
    (h : req.queryValidationToken = some token) :
    listenPost env store req = (Except.ok (HttpResponse.echo token, []), store) := by
  unfold listenPost
  rw [h]

/-- With no query token and no `validationTokens`, every notification is
processed in order and `202` is sent. -/
theorem listenPost_noTokens (env : Env) (store : Store) (req : Request)
    (hq : req.queryValidationToken = none) (hv : req.validationTokens = none) :
    listenPost env store req =
      (Except.ok (HttpResponse.status 202, (req.value.map (processOne env store)).flatten),
       store) := by
  unfold listenPost
  rw [hq, hv]
  rfl

/-- With no query token and a nonempty `validationTokens`, the aggregate is
the conjunction of the individual results and gates the loop; `202` is sent. -/
theorem listenPost_tokens (env : Env) (store : Store) (req : Request)
    (t : String) (ts : List String)
    (hq : req.queryValidationToken = none) (hv : req.validationTokens = some (t :: ts)) :
    listenPost env store req =
      (Except.ok (HttpResponse.status 202,
        if ((t :: ts).map
            (fun s => env.isTokenValid s env.oauthClientId env.oauthTenantId)).all id then
          (req.value.map (processOne env store)).flatten
        else []),
       store) := by
  unfold listenPost
  rw [hq, hv]
  show (match reduceAnd (((t :: ts).map fun s =>
      env.isTokenValid s env.oauthClientId env.oauthTenantId)) with
    | none => (Except.error (), store)
    | some b =>
      (Except.ok (HttpResponse.status 202,
        if b then (req.value.map (processOne env store)).flatten else []), store)) = _
  rw [List.map_cons, reduceAnd_cons]

/-- With no query token and an empty `validationTokens` array, the handler
throws: the empty-array `reduce` has no initial value. -/
theorem listenPost_emptyTokens (env : Env) (store : Store) (req : Request)
    (hq : req.queryValidationToken = none) (hv : req.validationTokens = some []) :
    listenPost env store req = (Except.error (), store) := by
  unfold listenPost
  rw [hq, hv]
  rfl

/-- A failed signature check stops `processEncryptedNotification` after the
verification call: no payload decryption, no emit. -/
theorem processEncryptedNotification_sigFail (env : Env) (n : Notification)
    (ec : EncryptedContent)
    (h : env.verifySignature ec.dataSignature ec.data
        (env.decryptSymmetricKey ec.dataKey env.privateKeyPath) = false) :
    processEncryptedNotification env n ec =
      [Action.decryptKeyCall ec.dataKey,
       Action.verifySignatureCall ec.dataSignature ec.data] := by
  simp [processEncryptedNotification, h]

/-- A successful signature check decrypts the payload and emits a
`chatMessage` event carrying the parsed plaintext. -/
theorem processEncryptedNotification_sigOk (env : Env) (n : Notification)
    (ec : EncryptedContent)
    (h : env.verifySignature ec.dataSignature ec.data
        (env.decryptSymmetricKey ec.dataKey env.privateKeyPath) = true) :
    processEncryptedNotification env n ec =
      [Action.decryptKeyCall ec.dataKey,
       Action.verifySignatureCall ec.dataSignature ec.data,
       Action.decryptPayloadCall ec.data,
       Action.emit n.subscriptionId
         { type := "chatMessage",
           resource := Resource.parsedJson
             (env.decryptPayload ec.data
               (env.decryptSymmetricKey ec.dataKey env.privateKeyPath)) }] := by
  simp [processEncryptedNotification, h]

/-- A client-state mismatch makes the loop body a no-op. -/
theorem processOne_clientStateMismatch (env : Env) (store : Store) (n : Notification)
    (h : n.clientState ≠ env.subscriptionClientState) :
    processOne env store n = [] := by
  simp [processOne, h]

/-- A missing subscription record makes the loop body a no-op. -/
theorem processOne_noSubscription (env : Env) (store : Store) (n : Notification)
    (h : getSubscription store n.subscriptionId = none) :
    processOne env store n = [] := by
  by_cases hcs : n.clientState = env.subscriptionClientState
  · simp [processOne, hcs, h]
  · simp [processOne, hcs]

/-- An authenticated notification with encrypted content is handled by
`processEncryptedNotification`. -/
theorem processOne_encrypted (env : Env) (store : Store) (n : Notification)
    (ec : EncryptedContent) (sub : Subscription)
    (hcs : n.clientState = env.subscriptionClientState)
    (hsub : getSubscription store n.subscriptionId = some sub)
    (henc : n.encryptedContent = some ec) :
    processOne env store n = processEncryptedNotification env n ec := by
  simp [processOne, hcs, hsub, henc]

/-- An authenticated plain notification is handled by `processNotification`
with the subscription's user account. -/
theorem processOne_plain (env : Env) (store : Store) (n : Notification)
    (sub : Subscription)
    (hcs : n.clientState = env.subscriptionClientState)
    (hsub : getSubscription store n.subscriptionId = some sub)
    (henc : n.encryptedContent = none) :
    processOne env store n = processNotification env n sub.userAccountId := by
  simp [processOne, hcs, hsub, henc]

/-- Whatever the notification, `processOne` never contains an emit if the
notification is encrypted and its signature fails to verify. -/
theorem processOne_sigFail_no_emit (env : Env) (store : Store) (n : Notification)
    (ec : EncryptedContent)
    (henc : n.encryptedContent = some ec)
    (hsig : env.verifySignature ec.dataSignature ec.data
        (env.decryptSymmetricKey ec.dataKey env.privateKeyPath) = false) :
    ∀ sid e, Action.emit sid e ∉ processOne env store n := by
  intro sid e
  by_cases hcs : n.clientState = env.subscriptionClientState
  · cases hsub : getSubscription store n.subscriptionId with
    | none => rw [processOne_noSubscription env store n hsub]; simp
    | some sub =>
      rw [processOne_encrypted env store n ec sub hcs hsub henc,
        processEncryptedNotification_sigFail env n ec hsig]
      simp
  · rw [processOne_clientStateMismatch env store n hcs]; simp

/-- A `created` plain notification fetches `/${notification.resource}` and,
on success, emits the projection tagged with the resource's type. -/
theorem processNotification_created_ok (env : Env) (n : Notification)
    (uid : String) (ev : GraphEvent)
    (hcreated : n.changeType = "created")
    (hev : env.getEvent uid ("/" ++ n.resource) = Except.ok ev) :
    processNotification env n uid =
      [Action.fetchCall uid ("/" ++ n.resource),
       Action.emit n.subscriptionId
         { type := n.resourceData.odataType, resource := Resource.graphEvent ev }] := by
  simp [processNotification, hcreated, hev]

/-- A `created` plain notification whose fetch fails logs the error and
emits nothing. -/
theorem processNotification_created_err (env : Env) (n : Notification)
    (uid : String) (err : String)
    (hcreated : n.changeType = "created")
    (herr : env.getEvent uid ("/" ++ n.resource) = Except.error err) :
    processNotification env n uid =
      [Action.fetchCall uid ("/" ++ n.resource),
       Action.logError ("Error getting event with " ++ n.resourceData.id)] := by
  simp [processNotification, hcreated, herr]

/-- A non-`created` plain notification emits the generic `event` with an
empty resource body, with no fetch. -/
theorem processNotification_other (env : Env) (n : Notification) (uid : String)
    (h : n.changeType ≠ "created") :
    processNotification env n uid =
      [Action.emit n.subscriptionId { type := "event", resource := Resource.emptyObj }] := by
  simp [processNotification, h]

/-! ### Claim theorems -/

/-- C1: for every encrypted notification where signature verification of
`dataSignature` against the recovered symmetric key fails, the symmetric
decryption of `encryptedContent.data` is never performed, no plaintext is
emitted, and no dispatch event is published for that notification. -/
theorem signature_invalid_never_decrypts (env : Env) (n : Notification)
    (ec : EncryptedContent)
    (h : env.verifySignature ec.dataSignature ec.data
        (env.decryptSymmetricKey ec.dataKey env.privateKeyPath) = false) :
    processEncryptedNotification env n ec =
      [Action.decryptKeyCall ec.dataKey,
       Action.verifySignatureCall ec.dataSignature ec.data] ∧
    (∀ d, Action.decryptPayloadCall d ∉ processEncryptedNotification env n ec) ∧
    (∀ sid e, Action.emit sid e ∉ processEncryptedNotification env n ec) := by
  have heq := processEncryptedNotification_sigFail env n ec h
  refine ⟨heq, ?_, ?_⟩
  · intro d
    rw [heq]
    simp
  · intro sid e
    rw [heq]
    simp

/-- C10: a batch whose `validationTokens` is present but empty makes the
aggregation reduce an empty list with no initial value; the handler throws
before examining any notification, so nothing is processed or dispatched and
the `202` acknowledgement is not sent by this handler. -/
theorem empty_validation_tokens_throw (env : Env) (store : Store) (req : Request)
    (hq : req.queryValidationToken = none) (hv : req.validationTokens = some []) :
    reduceAnd [] = none ∧
    listenPost env store req = (Except.error (), store) :=
  ⟨rfl, listenPost_emptyTokens env store req hq hv⟩

/-- C2: if any validation token of the batch fails verification, the
aggregate validity is the conjunction over all token results, no
notification is processed and nothing is dispatched, yet the batch is still
acknowledged with `202`. -/
theorem invalid_token_suppresses_batch (env : Env) (store : Store) (req : Request)
    (tokens : List String) (t : String)
    (hq : req.queryValidationToken = none)
    (hv : req.validationTokens = some tokens)
    (ht : t ∈ tokens)
    (hbad : env.isTokenValid t env.oauthClientId env.oauthTenantId = false) :
    reduceAnd (tokens.map fun s => env.isTokenValid s env.oauthClientId env.oauthTenantId) =
      some ((tokens.map fun s =>
        env.isTokenValid s env.oauthClientId env.oauthTenantId).all id) ∧
    listenPost env store req = (Except.ok (HttpResponse.status 202, []), store) := by
  cases tokens with
  | nil => cases ht
  | cons a as =>
    have hall : ((a :: as).map fun s =>
        env.isTokenValid s env.oauthClientId env.oauthTenantId).all id = false := by
      refine List.all_eq_false.mpr ⟨env.isTokenValid t env.oauthClientId env.oauthTenantId,
        List.mem_map_of_mem _ ht, ?_⟩
      rw [hbad]
      simp
    refine ⟨by rw [List.map_cons, reduceAnd_cons], ?_⟩
    rw [listenPost_tokens env store req a as hq hv, hall]
    simp

/-- C3: a notification whose `clientState` differs from the configured
secret, or whose `subscriptionId` has no record in the store, contributes no
actions at all (hence no dispatch); the handler still acknowledges the batch
with `202`, surfacing no error to the sender. -/
theorem unauthenticated_notification_skipped (env : Env) (store : Store)
    (n : Notification)
    (h : n.clientState ≠ env.subscriptionClientState ∨
      getSubscription store n.subscriptionId = none) :
    processOne env store n = [] ∧
    ∀ req : Request, req.queryValidationToken = none → req.validationTokens = none →
      listenPost env store req =
        (Except.ok (HttpResponse.status 202,
          (req.value.map (processOne env store)).flatten), store) := by
  constructor
  · rcases h with h | h
    · exact processOne_clientStateMismatch env store n h
    · exact processOne_noSubscription env store n h
  · intro req hq hv
    exact listenPost_noTokens env store req hq hv

/-- C4: a decryption failure (here: the invalid-signature outcome, under
which the spec-modelled helpers also subsume malformed input and key-unwrap
failure, since a failed unwrap yields key material no signature verifies
under) is terminal for that single encrypted notification only: it emits
nothing, while every sibling notification of the batch contributes exactly
the actions it would contribute on its own. -/
theorem decryption_failure_is_local (env : Env) (store : Store) (req : Request)
    (xs ys : List Notification) (n : Notification) (ec : EncryptedContent)
    (hq : req.queryValidationToken = none)
    (hv : req.validationTokens = none)
    (hval : req.value = xs ++ n :: ys)
    (henc : n.encryptedContent = some ec)
    (hsig : env.verifySignature ec.dataSignature ec.data
        (env.decryptSymmetricKey ec.dataKey env.privateKeyPath) = false) :
    listenPost env store req =
      (Except.ok (HttpResponse.status 202,
        (xs.map (processOne env store)).flatten ++ processOne env store n ++
          (ys.map (processOne env store)).flatten), store) ∧
    ∀ sid e, Action.emit sid e ∉ processOne env store n := by
  constructor
  · rw [listenPost_noTokens env store req hq hv, hval]
    simp [List.flatten_append, List.append_assoc]
  · exact processOne_sigFail_no_emit env store n ec henc hsig

/-- C5: an authenticated plain notification with `changeType = "created"`
fetches the projection at the resource path named in the notification; on
success it publishes exactly one event tagged with the resource's
`@odata.type` and carrying the fetched projection; on fetch failure it logs
the error locally and publishes nothing. -/
theorem created_plain_fetch_and_dispatch (env : Env) (store : Store)
    (n : Notification) (sub : Subscription)
    (hcs : n.clientState = env.subscriptionClientState)
    (hsub : getSubscription store n.subscriptionId = some sub)
    (henc : n.encryptedContent = none)
    (hcreated : n.changeType = "created") :
    (∀ ev, env.getEvent sub.userAccountId ("/" ++ n.resource) = Except.ok ev →
      processOne env store n =
        [Action.fetchCall sub.userAccountId ("/" ++ n.resource),
         Action.emit n.subscriptionId
           { type := n.resourceData.odataType, resource := Resource.graphEvent ev }]) ∧
    (∀ err, env.getEvent sub.userAccountId ("/" ++ n.resource) = Except.error err →
      processOne env store n =
        [Action.fetchCall sub.userAccountId ("/" ++ n.resource),
         Action.logError ("Error getting event with " ++ n.resourceData.id)]) := by
  have hp := processOne_plain env store n sub hcs hsub henc
  constructor
  · intro ev hev
    rw [hp, processNotification_created_ok env n sub.userAccountId ev hcreated hev]
  · intro err herr
    rw [hp, processNotification_created_err env n sub.userAccountId err hcreated herr]

/-- C6: an authenticated encrypted notification whose signature verifies
publishes exactly one event, to the channel of its `subscriptionId`, tagged
`chatMessage` and carrying the parsed plaintext of the symmetric decryption
of `encryptedContent.data` with the recovered key. -/
theorem encrypted_valid_signature_dispatches (env : Env) (store : Store)
    (n : Notification) (ec : EncryptedContent) (sub : Subscription)
    (hcs : n.clientState = env.subscriptionClientState)
    (hsub : getSubscription store n.subscriptionId = some sub)
    (henc : n.encryptedContent = some ec)
    (hsig : env.verifySignature ec.dataSignature ec.data
        (env.decryptSymmetricKey ec.dataKey env.privateKeyPath) = true) :
    processOne env store n =
      [Action.decryptKeyCall ec.dataKey,
       Action.verifySignatureCall ec.dataSignature ec.data,
       Action.decryptPayloadCall ec.data,
       Action.emit n.subscriptionId
         { type := "chatMessage",
           resource := Resource.parsedJson
             (env.decryptPayload ec.data
               (env.decryptSymmetricKey ec.dataKey env.privateKeyPath)) }] := by
  rw [processOne_encrypted env store n ec sub hcs hsub henc,
    processEncryptedNotification_sigOk env n ec hsig]

/-- C7: an authenticated plain notification whose `changeType` is not
`created` publishes exactly one event with the generic `event` tag and an
empty resource body, and performs no external resource fetch. -/
theorem non_created_plain_dispatches_empty (env : Env) (store : Store)
    (n : Notification) (sub : Subscription)
    (hcs : n.clientState = env.subscriptionClientState)
    (hsub : getSubscription store n.subscriptionId = some sub)
    (henc : n.encryptedContent = none)
    (hnc : n.changeType ≠ "created") :
    processOne env store n =
      [Action.emit n.subscriptionId { type := "event", resource := Resource.emptyObj }] ∧
    ∀ uid path, Action.fetchCall uid path ∉ processOne env store n := by
  have heq : processOne env store n =
      [Action.emit n.subscriptionId { type := "event", resource := Resource.emptyObj }] := by
    rw [processOne_plain env store n sub hcs hsub henc,
      processNotification_other env n sub.userAccountId hnc]
  refine ⟨heq, ?_⟩
  intro uid path
  rw [heq]
  simp

/-- C8 (amended): every batch whose `validationTokens` field is absent or
nonempty is acknowledged with `202`, regardless of how many notifications
were authenticated, decrypted, or dispatched, including batches suppressed
by validation-token failure. -/
theorem batch_accepted_unless_empty_tokens (env : Env) (store : Store) (req : Request)
    (hq : req.queryValidationToken = none)
    (hv : req.validationTokens ≠ some []) :
    ∃ acts, listenPost env store req = (Except.ok (HttpResponse.status 202, acts), store) := by
  cases hvt : req.validationTokens with
  | none => exact ⟨_, listenPost_noTokens env store req hq hvt⟩
  | some tokens =>
    cases tokens with
    | nil => exact absurd hvt hv
    | cons a as => exact ⟨_, listenPost_tokens env store req a as hq hvt⟩

/-- C9: processing a batch returns the subscription store unchanged (the
pipeline's only store operation is the read `getSubscription`), so
re-processing the identical batch from the resulting store yields the
identical outcome, dispatch events included. -/
theorem reprocessing_identical_batch (env : Env) (store : Store) (req : Request) :
    (listenPost env store req).2 = store ∧
    listenPost env (listenPost env store req).2 req = listenPost env store req := by
  have hs : (listenPost env store req).2 = store := by
    cases hq : req.queryValidationToken with
    | some t => rw [listenPost_echo env store req t hq]
    | none =>
      cases hv : req.validationTokens with
      | none => rw [listenPost_noTokens env store req hq hv]
      | some tokens =>
        cases tokens with
        | nil => rw [listenPost_emptyTokens env store req hq hv]
        | cons a as => rw [listenPost_tokens env store req a as hq hv]
  exact ⟨hs, by rw [hs]⟩

/-! ### Concrete fixtures for counterexamples and witnesses -/

/-- A concrete environment: one valid token string, a deterministic key
unwrap, and a keyed-MAC-shaped signature check. -/
def envW : Env where
  oauthClientId := "app-id"
  oauthTenantId := "tenant-id"
  subscriptionClientState := "s3cret"
  privateKeyPath := "key.pem"
  isTokenValid := fun t _ _ => t == "good-token"
  decryptSymmetricKey := fun k _ => "sym-" ++ k
  verifySignature := fun sig data key => sig == "mac-" ++ data ++ "-" ++ key
  decryptPayload := fun data key => "plain-" ++ data ++ "-" ++ key
  getEvent := fun _ path =>
    if path == "/events/bad" then Except.error "404"
    else Except.ok { subject := "subject-1", id := "event-1" }

/-- A store holding one subscription. -/
def storeW : Store := [("sub-1", { userAccountId := "user-1" })]

/-- Encrypted content whose signature verifies under `envW`. -/
def ecGood : EncryptedContent :=
  { dataKey := "dk", dataSignature := "mac-cipher-sym-dk", data := "cipher" }

/-- Encrypted content with a tampered signature. -/
def ecBad : EncryptedContent :=
  { dataKey := "dk", dataSignature := "tampered", data := "cipher" }

/-- An authenticated encrypted notification with a valid signature. -/
def nEncGood : Notification :=
  { subscriptionId := "sub-1", clientState := "s3cret", changeType := "created",
    resource := "events/1", resourceData := { id := "m-1", odataType := "#Microsoft.Graph.Event" },
    encryptedContent := some ecGood }

/-- An authenticated encrypted notification with a tampered signature. -/
def nEncBad : Notification :=
  { nEncGood with encryptedContent := some ecBad }

/-- An authenticated plain `created` notification. -/
def nPlainCreated : Notification :=
  { nEncGood with encryptedContent := none }

/-- An authenticated plain `updated` notification. -/
def nPlainUpdated : Notification :=
  { nPlainCreated with changeType := "updated" }

/-- A notification whose `clientState` does not match the secret. -/
def nWrongState : Notification :=
  { nPlainUpdated with clientState := "wrong" }

/-- A batch carrying a present-but-empty `validationTokens` array. -/
def reqEmptyTokens : Request :=
  { queryValidationToken := none, validationTokens := some [], value := [nPlainUpdated] }

/-- A batch carrying one valid and one invalid validation token. -/
def reqBadToken : Request :=
  { queryValidationToken := none, validationTokens := some ["good-token", "bad-token"],
    value := [nPlainUpdated] }

/-- A token-free batch with a failing encrypted notification between two
plain siblings. -/
def reqMixed : Request :=
  { queryValidationToken := none, validationTokens := none,
    value := [nPlainUpdated, nEncBad, nPlainUpdated] }

/-- A token-free batch with a single plain notification. -/
def reqPlain : Request :=
  { queryValidationToken := none, validationTokens := none, value := [nPlainUpdated] }

/-! ### Counterexample and witnesses -/

/-- C8 counterexample: the batch `reqEmptyTokens` (no query token, empty
`validationTokens`, one notification) makes the handler throw, so it is not
answered with the accepted `202` acknowledgement. -/
theorem batch_with_empty_tokens_not_accepted :
    (listenPost envW storeW reqEmptyTokens).1 = Except.error () ∧
    ∀ acts, (listenPost envW storeW reqEmptyTokens).1 ≠
      Except.ok (HttpResponse.status 202, acts) := by
  refine ⟨rfl, ?_⟩
  intro acts h
  exact Except.noConfusion
    (show (Except.error () : Except Unit (HttpResponse × List Action)) =
      Except.ok (HttpResponse.status 202, acts) from h)

/-- Witness for C1 at `envW`, `nEncBad`. -/
theorem signature_invalid_never_decrypts_witness :
    envW.verifySignature ecBad.dataSignature ecBad.data
        (envW.decryptSymmetricKey ecBad.dataKey envW.privateKeyPath) = false ∧
    (processEncryptedNotification envW nEncBad ecBad =
      [Action.decryptKeyCall ecBad.dataKey,
       Action.verifySignatureCall ecBad.dataSignature ecBad.data] ∧
    (∀ d, Action.decryptPayloadCall d ∉ processEncryptedNotification envW nEncBad ecBad) ∧
    (∀ sid e, Action.emit sid e ∉ processEncryptedNotification envW nEncBad ecBad)) :=
  ⟨by decide, signature_invalid_never_decrypts envW nEncBad ecBad (by decide)⟩

/-- Witness for C2 at `envW`, `storeW`, `reqBadToken`. -/
theorem invalid_token_suppresses_batch_witness :
    reqBadToken.queryValidationToken = none ∧
    reqBadToken.validationTokens = some ["good-token", "bad-token"] ∧
    "bad-token" ∈ ["good-token", "bad-token"] ∧
    envW.isTokenValid "bad-token" envW.oauthClientId envW.oauthTenantId = false ∧
    (reduceAnd (["good-token", "bad-token"].map fun s =>
        envW.isTokenValid s envW.oauthClientId envW.oauthTenantId) =
      some ((["good-token", "bad-token"].map fun s =>
        envW.isTokenValid s envW.oauthClientId envW.oauthTenantId).all id) ∧
    listenPost envW storeW reqBadToken =
      (Except.ok (HttpResponse.status 202, []), storeW)) :=
  ⟨rfl, rfl, by decide, by decide,
    invalid_token_suppresses_batch envW storeW reqBadToken
      ["good-token", "bad-token"] "bad-token" rfl rfl (by decide) (by decide)⟩

/-- Witness for C3 at `envW`, `storeW`, `nWrongState`. -/
theorem unauthenticated_notification_skipped_witness :
    (nWrongState.clientState ≠ envW.subscriptionClientState ∨
      getSubscription storeW nWrongState.subscriptionId = none) ∧
    (processOne envW storeW nWrongState = [] ∧
    ∀ req : Request, req.queryValidationToken = none → req.validationTokens = none →
      listenPost envW storeW req =
        (Except.ok (HttpResponse.status 202,
          (req.value.map (processOne envW storeW)).flatten), storeW)) :=
  ⟨Or.inl (by decide),
    unauthenticated_notification_skipped envW storeW nWrongState (Or.inl (by decide))⟩

/-- Witness for C4 at `envW`, `storeW`, `reqMixed`. -/
theorem decryption_failure_is_local_witness :
    reqMixed.queryValidationToken = none ∧
    reqMixed.validationTokens = none ∧
    reqMixed.value = [nPlainUpdated] ++ nEncBad :: [nPlainUpdated] ∧
    nEncBad.encryptedContent = some ecBad ∧
    envW.verifySignature ecBad.dataSignature ecBad.data
        (envW.decryptSymmetricKey ecBad.dataKey envW.privateKeyPath) = false ∧
    (listenPost envW storeW reqMixed =
      (Except.ok (HttpResponse.status 202,
        ([nPlainUpdated].map (processOne envW storeW)).flatten ++
          processOne envW storeW nEncBad ++
          ([nPlainUpdated].map (processOne envW storeW)).flatten), storeW) ∧
    ∀ sid e, Action.emit sid e ∉ processOne envW storeW nEncBad) :=
  ⟨rfl, rfl, rfl, rfl, by decide,
    decryption_failure_is_local envW storeW reqMixed [nPlainUpdated] [nPlainUpdated]
      nEncBad ecBad rfl rfl rfl rfl (by decide)⟩

/-- Witness for C5 at `envW`, `storeW`, `nPlainCreated`. -/
theorem created_plain_fetch_and_dispatch_witness :
    nPlainCreated.clientState = envW.subscriptionClientState ∧
    getSubscription storeW nPlainCreated.subscriptionId =
      some { userAccountId := "user-1" } ∧
    nPlainCreated.encryptedContent = none ∧
    nPlainCreated.changeType = "created" ∧
    ((∀ ev, envW.getEvent ({ userAccountId := "user-1" : Subscription }).userAccountId
        ("/" ++ nPlainCreated.resource) = Except.ok ev →
      processOne envW storeW nPlainCreated =
        [Action.fetchCall ({ userAccountId := "user-1" : Subscription }).userAccountId
          ("/" ++ nPlainCreated.resource),
         Action.emit nPlainCreated.subscriptionId
           { type := nPlainCreated.resourceData.odataType,
             resource := Resource.graphEvent ev }]) ∧
    (∀ err, envW.getEvent ({ userAccountId := "user-1" : Subscription }).userAccountId
        ("/" ++ nPlainCreated.resource) = Except.error err →
      processOne envW storeW nPlainCreated =
        [Action.fetchCall ({ userAccountId := "user-1" : Subscription }).userAccountId
          ("/" ++ nPlainCreated.resource),
         Action.logError ("Error getting event with " ++ nPlainCreated.resourceData.id)])) :=
  ⟨by decide, by decide, rfl, rfl,
    created_plain_fetch_and_dispatch envW storeW nPlainCreated
      { userAccountId := "user-1" } (by decide) (by decide) rfl rfl⟩

/-- Witness for C6 at `envW`, `storeW`, `nEncGood`. -/
theorem encrypted_valid_signature_dispatches_witness :
    nEncGood.clientState = envW.subscriptionClientState ∧
    getSubscription storeW nEncGood.subscriptionId = some { userAccountId := "user-1" } ∧
    nEncGood.encryptedContent = some ecGood ∧
    envW.verifySignature ecGood.dataSignature ecGood.data
        (envW.decryptSymmetricKey ecGood.dataKey envW.privateKeyPath) = true ∧
    processOne envW storeW nEncGood =
      [Action.decryptKeyCall ecGood.dataKey,
       Action.verifySignatureCall ecGood.dataSignature ecGood.data,
       Action.decryptPayloadCall ecGood.data,
       Action.emit nEncGood.subscriptionId
         { type := "chatMessage",
           resource := Resource.parsedJson
             (envW.decryptPayload ecGood.data
               (envW.decryptSymmetricKey ecGood.dataKey envW.privateKeyPath)) }] :=
  ⟨by decide, by decide, rfl, by decide,
    encrypted_valid_signature_dispatches envW storeW nEncGood ecGood
      { userAccountId := "user-1" } (by decide) (by decide) rfl (by decide)⟩

/-- Witness for C7 at `envW`, `storeW`, `nPlainUpdated`. -/
theorem non_created_plain_dispatches_empty_witness :
    nPlainUpdated.clientState = envW.subscriptionClientState ∧
    getSubscription storeW nPlainUpdated.subscriptionId =
      some { userAccountId := "user-1" } ∧
    nPlainUpdated.encryptedContent = none ∧
    nPlainUpdated.changeType ≠ "created" ∧
    (processOne envW storeW nPlainUpdated =
      [Action.emit nPlainUpdated.subscriptionId
        { type := "event", resource := Resource.emptyObj }] ∧
    ∀ uid path, Action.fetchCall uid path ∉ processOne envW storeW nPlainUpdated) :=
  ⟨by decide, by decide, rfl, by decide,
    non_created_plain_dispatches_empty envW storeW nPlainUpdated
      { userAccountId := "user-1" } (by decide) (by decide) rfl (by decide)⟩

/-- Witness for the amended C8 at `envW`, `storeW`, `reqPlain`. -/
theorem batch_accepted_unless_empty_tokens_witness :
    reqPlain.queryValidationToken = none ∧
    reqPlain.validationTokens ≠ some [] ∧
    ∃ acts, listenPost envW storeW reqPlain =
      (Except.ok (HttpResponse.status 202, acts), storeW) :=
  ⟨rfl, by decide,
    batch_accepted_unless_empty_tokens envW storeW reqPlain rfl (by decide)⟩

/-- Witness for C10 at `envW`, `storeW`, `reqEmptyTokens`. -/
theorem empty_validation_tokens_throw_witness :
    reqEmptyTokens.queryValidationToken = none ∧
    reqEmptyTokens.validationTokens = some [] ∧
    (reduceAnd [] = none ∧
    listenPost envW storeW reqEmptyTokens = (Except.error (), storeW)) :=
  ⟨rfl, rfl, empty_validation_tokens_throw envW storeW reqEmptyTokens rfl rfl⟩

end Listen
